import Mathlib

/-!
Shallow embedding of `src/sys/windows/rt.rs` — the Windows IOCP reactor
backend of the `mio` crate (prototype).  The OS completion-port primitive is
an external collaborator; each embedded operation takes the OS call's outcome
(or the OS call itself) as an explicit oracle argument and performs exactly
the checks the Rust source performs on it.  Panics (`assert!`, the
unreachable `match` arms with `panic!`) are modelled as a distinguished
`Outcome.panicked` constructor.
-/

namespace Mio

/-- Windows `HANDLE`, modelled as a machine word; the null handle is `0`. -/
abbrev HANDLE := Nat

/-- Windows `SOCKET`. -/
abbrev SOCKET := Nat

/-- Width of `usize` on 64-bit Windows: atomic counters wrap modulo `W`. -/
def W : Nat := 2 ^ 64

/-- Result of a caller-facing operation.  `ok` and `err` are the two arms of
`io::Result`; `err` carries the raw OS error code (`io::Error`'s
`raw_os_error`).  `panicked` models a failed `assert!` or an explicit
`panic!` in the Rust source. -/
inductive Outcome (α : Type) where
  | ok (a : α)
  | err (code : Int)
  | panicked
  deriving Repr, DecidableEq

/-- `struct RtInner { refs: AtomicUsize, iocp: api::HANDLE }` — the global
reactor core: the lease refcount and the completion-port handle. -/
structure RtInner where
  refs : Nat
  iocp : HANDLE
  deriving Repr, DecidableEq

/-- Outcome of the OS call
`CreateIoCompletionPort(INVALID_HANDLE_VALUE, null, 0, 1)` made by
`RtInner::new`: the handle the OS returned (`0` means null, i.e. failure)
together with the thread's last OS error code (`GetLastError`), which the
source reads via `io::Error::last_os_error()` only when the handle is null. -/
structure CreateOutcome where
  handle : HANDLE
  lastError : Int
  deriving Repr, DecidableEq

/-- `RtInner::new()`: invokes the port-creation primitive (whose result is
the oracle `o`); returns `Err(last_os_error)` when the returned handle is
null, otherwise the core with `refs` initialised to `0`.  The error is kept
as the raw code, mirroring `GLOBAL`'s `Option<Result<RtInner, i32>>` (the
source stores `e.raw_os_error().unwrap()`). -/
def RtInner.new (o : CreateOutcome) : Except Int RtInner :=
  if o.handle = 0 then Except.error o.lastError
  else Except.ok { refs := 0, iocp := o.handle }

/-- The state of `static mut GLOBAL: Option<Result<RtInner, i32>>`. -/
abbrev GState := Option (Except Int RtInner)

/-- One call to `RtInner::global()`.  The `sync::Once` barrier runs the
initialisation body (which invokes `RtInner::new`, i.e. the OS creation
primitive, and stores the outcome in `GLOBAL`) exactly when `GLOBAL` is still
unset; every call then reads `GLOBAL`: `Some(Ok(_))` yields the shared core,
`Some(Err(e))` yields `io::Error::from_raw_os_error(e)`, and the `None` arm
is `panic!("should be set by now")`.  Returns the new state, whether this
call invoked the creation primitive, and the call's result. -/
def RtInner.globalStep (s : GState) (o : CreateOutcome) :
    GState × Bool × Outcome RtInner :=
  let s' : GState :=
    match s with
    | none => some (RtInner.new o)
    | some r => some r
  let res : Outcome RtInner :=
    match s' with
    | some (Except.ok inner) => Outcome.ok inner
    | some (Except.error e) => Outcome.err e
    | none => Outcome.panicked
  (s', s.isNone, res)

/-- `n` successive calls to `RtInner::global()` from state `s` (the OS
creation oracle `o` is fixed: only the first creation can consult it).
Returns the final state, the total number of invocations of the OS creation
primitive, and the list of the calls' results. -/
def runGlobal (s : GState) (o : CreateOutcome) : Nat → GState × Nat × List (Outcome RtInner)
  | 0 => (s, 0, [])
  | n + 1 =>
    let step := RtInner.globalStep s o
    let rest := runGlobal step.1 o n
    (rest.1, (if step.2.1 then 1 else 0) + rest.2.1, step.2.2 :: rest.2.2)

/-- The outcome cached by the one-time initialisation for oracle `o`:
the shared core on success, the raw-coded error on failure. -/
def cachedOutcome (o : CreateOutcome) : Outcome RtInner :=
  match RtInner.new o with
  | Except.ok inner => Outcome.ok inner
  | Except.error e => Outcome.err e

theorem globalStep_some (r : Except Int RtInner) (o : CreateOutcome) :
    RtInner.globalStep (some r) o =
      (some r, false,
        match r with
        | Except.ok inner => Outcome.ok inner
        | Except.error e => Outcome.err e) := by
  cases r <;> rfl

theorem globalStep_none (o : CreateOutcome) :
    RtInner.globalStep none o =
      (some (RtInner.new o), true, cachedOutcome o) := by
  unfold RtInner.globalStep cachedOutcome
  cases h : RtInner.new o <;> simp [h]

theorem runGlobal_some (r : Except Int RtInner) (o : CreateOutcome) (n : Nat) :
    (runGlobal (some r) o n).1 = some r ∧
    (runGlobal (some r) o n).2.1 = 0 ∧
    ∀ x ∈ (runGlobal (some r) o n).2.2,
      x = match r with
          | Except.ok inner => Outcome.ok inner
          | Except.error e => Outcome.err e := by
  induction n with
  | zero => simp [runGlobal]
  | succ n ih =>
    simp only [runGlobal, globalStep_some]
    refine ⟨ih.1, by simpa using ih.2.1, ?_⟩
    intro x hx
    rcases List.mem_cons.mp hx with h | h
    · exact h
    · exact ih.2.2 x h

theorem cachedOutcome_eq (o : CreateOutcome) :
    cachedOutcome o =
      match RtInner.new o with
      | Except.ok inner => Outcome.ok inner
      | Except.error e => Outcome.err e := rfl

theorem cachedOutcome_ne_panicked (o : CreateOutcome) :
    cachedOutcome o ≠ Outcome.panicked := by
  unfold cachedOutcome
  cases RtInner.new o <;> simp

theorem runGlobal_none_spec (o : CreateOutcome) (n : Nat) :
    (runGlobal none o n).2.1 = min n 1 ∧
    ∀ x ∈ (runGlobal none o n).2.2,
      x = cachedOutcome o ∧ x ≠ Outcome.panicked := by
  cases n with
  | zero => simp [runGlobal]
  | succ n =>
    have h := runGlobal_some (RtInner.new o) o n
    simp only [runGlobal, globalStep_none]
    constructor
    · simpa using h.2.1
    · intro x hx
      have hx' : x = cachedOutcome o := by
        rcases List.mem_cons.mp hx with h1 | h1
        · exact h1
        · rw [h.2.2 x h1, cachedOutcome_eq]
      exact ⟨hx', hx' ▸ cachedOutcome_ne_panicked o⟩

/-- C1: across every sequence of `n` calls to `global()` starting from the
uninitialised state, the OS completion-port creation primitive is invoked
exactly `min n 1` times (at most once; exactly once as soon as any call
completes), and every call returns the same cached outcome — the shared core
on success or the error reconstructed from the cached code on failure — and
never the panic arm for an uninitialised state. -/
theorem c1_exactly_once_global_creation (o : CreateOutcome) (n : Nat) :
    (runGlobal none o n).2.1 = min n 1 ∧
    ∀ x ∈ (runGlobal none o n).2.2,
      x = cachedOutcome o ∧ x ≠ Outcome.panicked :=
  runGlobal_none_spec o n

/-- C2: if the one-time creation fails (the OS returned the null handle, and
the cached code is `o.lastError`), then every one of the `n` calls to
`global()` returns the error reconstructed from that same cached code, and
the creation primitive is invoked only `min n 1` times — never again after
the first call. -/
theorem c2_idempotent_failure_caching (o : CreateOutcome) (n : Nat)
    (hfail : o.handle = 0) :
    (runGlobal none o n).2.1 = min n 1 ∧
    ∀ x ∈ (runGlobal none o n).2.2, x = Outcome.err o.lastError := by
  have hnew : RtInner.new o = Except.error o.lastError := by
    unfold RtInner.new
    simp [hfail]
  have h := runGlobal_none_spec o n
  refine ⟨h.1, fun x hx => ?_⟩
  rw [(h.2 x hx).1, cachedOutcome_eq, hnew]

/-- Witness for C2 at a concrete failing creation (null handle, code 5) and
three calls: the failure hypothesis holds and the creation primitive is
invoked exactly once, with the first call already returning the cached
error. -/
theorem c2_idempotent_failure_caching_witness :
    (⟨0, 5⟩ : CreateOutcome).handle = 0 ∧
    (runGlobal none ⟨0, 5⟩ 3).2.1 = min 3 1 ∧
    Outcome.err 5 ∈ (runGlobal none ⟨0, 5⟩ 3).2.2 :=
  ⟨rfl, (c2_idempotent_failure_caching ⟨0, 5⟩ 3 rfl).1, by decide⟩

/-- Outcome of the OS call
`GetQueuedCompletionStatus(iocp, &bytes, &key, &overlapped, timeout_ms)`:
one completion packet was dequeued (carrying the byte count, completion key
and overlapped/operation-context pointer written to the out parameters), the
wait timed out, or the call failed with an OS error. -/
inductive WaitOneOutcome where
  | success (bytes : Nat) (key : Nat) (overlapped : Nat)
  | timeout
  | failure (code : Int)
  deriving Repr, DecidableEq

/-- The `BOOL` that `GetQueuedCompletionStatus` returns for each outcome:
nonzero (`TRUE`) exactly when a completion packet was dequeued; on a timeout
as well as on any other failure it returns zero (`FALSE`) — the documented
Win32 convention, matching the external interface
`dequeue-one(port_handle, timeout) → (bytes, key, operation_context) |
timeout | error` where only the first arm is a successful dequeue. -/
def WaitOneOutcome.returnsTRUE : WaitOneOutcome → Bool
  | WaitOneOutcome.success _ _ _ => true
  | WaitOneOutcome.timeout => false
  | WaitOneOutcome.failure _ => false

/-- `RtInner::poll`: calls `GetQueuedCompletionStatus` on `self.iocp` with a
`100_000` ms timeout (the OS call is the oracle `wait`, applied at exactly
those arguments), executes `assert!(res == api::TRUE)` — modelled as
`panicked` when the assertion fails — then discards the dequeued
bytes/key/overlapped values and returns `Ok(())`. -/
def RtInner.poll (inner : RtInner) (wait : HANDLE → Nat → WaitOneOutcome) :
    Outcome Unit :=
  let res := wait inner.iocp 100000
  if res.returnsTRUE then Outcome.ok () else Outcome.panicked

/-- The argument tuple `RtInner::associate_socket` passes to
`CreateIoCompletionPort`: the socket as the target handle, the reactor's
port, the completion key, and `0` for the concurrent-thread count. -/
structure AssocCall where
  target : HANDLE
  port : HANDLE
  key : Nat
  maxThreads : Nat
  deriving Repr, DecidableEq

/-- The call `api::CreateIoCompletionPort(sock as HANDLE, self.iocp, 123, 0)`
made by `RtInner::associate_socket` — the key is the literal `123` for every
socket. -/
def RtInner.associateArgs (inner : RtInner) (sock : SOCKET) : AssocCall :=
  { target := sock, port := inner.iocp, key := 123, maxThreads := 0 }

/-- What the source observes of the OS associate call: the `HANDLE` it
returned, and the thread's last OS error code (read via
`io::Error::last_os_error()` only when the handle check fails). -/
structure AssocOutcome where
  res : HANDLE
  lastError : Int
  deriving Repr, DecidableEq

/-- `RtInner::associate_socket`: performs the OS associate call with
`associateArgs` (the OS is the oracle `os`), then returns
`Err(last_os_error)` when the returned handle differs from `self.iocp`, and
`Ok(())` otherwise. -/
def RtInner.associate_socket (inner : RtInner) (os : AssocCall → AssocOutcome)
    (sock : SOCKET) : Outcome Unit :=
  let r := os (inner.associateArgs sock)
  if r.res ≠ inner.iocp then Outcome.err r.lastError else Outcome.ok ()

/-- Outcome of the OS call `GetQueuedCompletionStatusEx(iocp, entries,
max_entries, &count, timeout_ms, FALSE)`: a batch of dequeued
`OVERLAPPED_ENTRY` records — each carrying the `Internal` status and
`InternalHigh` byte count the loop body reads — or a timeout, or an OS
error. -/
inductive BatchOutcome where
  | success (entries : List (Nat × Nat))
  | timeout
  | failure (code : Int)
  deriving Repr, DecidableEq

/-- The `BOOL` `GetQueuedCompletionStatusEx` returns: `TRUE` exactly when
completion entries were dequeued; a timeout, like any other failure, returns
`FALSE` (documented Win32 convention; `GetLastError` then reports
`WAIT_TIMEOUT`). -/
def BatchOutcome.returnsTRUE : BatchOutcome → Bool
  | BatchOutcome.success _ => true
  | BatchOutcome.timeout => false
  | BatchOutcome.failure _ => false

/-- The records drained by a batch wait: the dequeued entries on success,
none otherwise. -/
def BatchOutcome.drained : BatchOutcome → List (Nat × Nat)
  | BatchOutcome.success entries => entries
  | BatchOutcome.timeout => []
  | BatchOutcome.failure _ => []

/-- One step of the dispatch loop: either the iteration processed the
drained records (tracing each status/bytes pair) and the loop continues, or
the iteration's assertion failed and the dispatch thread panics. -/
inductive LoopStep where
  | next (events : List (Nat × Nat))
  | panicked
  deriving Repr, DecidableEq

/-- One iteration of the `loop` in `RtInner::init` (the background dispatch
loop): calls `GetQueuedCompletionStatusEx` on `self.iocp` with batch
capacity `128` and timeout `10_000` ms (the OS call is the oracle `waitEx`,
applied at exactly those arguments), executes
`assert!(res == api::TRUE, "failed to dequeue completion status")`, then
iterates over the `count` drained records. -/
def RtInner.initStep (inner : RtInner)
    (waitEx : HANDLE → Nat → Nat → BatchOutcome) : LoopStep :=
  let o := waitEx inner.iocp 128 10000
  if o.returnsTRUE then LoopStep.next o.drained else LoopStep.panicked

/-- C3 counterexample: when no completion record is available before the
configured timeout elapses (the OS wait reports a timeout), `poll` does not
return a timeout outcome to the caller — the assertion `res == api::TRUE`
fails and the call panics. -/
theorem c3_counterexample :
    RtInner.poll ⟨0, 7⟩ (fun _ _ => WaitOneOutcome.timeout) = Outcome.panicked := rfl

/-- C3 amended: when the OS wait on the port times out, `poll` panics (the
assertion on the `TRUE` return fires); it returns at all only when a
completion packet was dequeued. -/
theorem c3_poll_timeout_panics (inner : RtInner)
    (wait : HANDLE → Nat → WaitOneOutcome)
    (h : wait inner.iocp 100000 = WaitOneOutcome.timeout) :
    inner.poll wait = Outcome.panicked := by
  unfold RtInner.poll
  rw [h]
  rfl

/-- Witness for the amended C3 at a concrete reactor and a concrete
timing-out OS wait. -/
theorem c3_poll_timeout_panics_witness :
    RtInner.poll ⟨0, 9⟩ (fun _ _ => WaitOneOutcome.timeout) = Outcome.panicked :=
  c3_poll_timeout_panics ⟨0, 9⟩ (fun _ _ => WaitOneOutcome.timeout) rfl

/-- C4 counterexample: `poll` can panic — on an OS wait failure (and likewise
on a timeout) its assertion fires, so the fatal branch in `poll` is
reachable, contrary to the claim that caller-facing operations never
panic. -/
theorem c4_counterexample :
    RtInner.poll ⟨0, 7⟩ (fun _ _ => WaitOneOutcome.failure 5) = Outcome.panicked := rfl

/-- C4 amended: `associate_socket` always returns a distinguishable
success-or-failure value and never panics, for every reactor, OS outcome and
socket; `poll`, however, panics exactly when the OS wait does not report a
successful dequeue (timeout or error), and returns `Ok(())` otherwise. -/
theorem c4_assoc_total_poll_asserts :
    (∀ (inner : RtInner) (os : AssocCall → AssocOutcome) (sock : SOCKET),
        inner.associate_socket os sock ≠ Outcome.panicked) ∧
    (∀ (inner : RtInner) (wait : HANDLE → Nat → WaitOneOutcome),
        inner.poll wait = Outcome.panicked ↔
          (wait inner.iocp 100000).returnsTRUE = false) := by
  constructor
  · intro inner os sock
    unfold RtInner.associate_socket
    by_cases h : (os (inner.associateArgs sock)).res = inner.iocp <;> simp [h]
  · intro inner wait
    unfold RtInner.poll
    cases h : wait inner.iocp 100000 <;> simp [h, WaitOneOutcome.returnsTRUE]

/-- Witness for the amended C4: a concrete successful association does not
panic. -/
theorem c4_assoc_total_poll_asserts_witness :
    RtInner.associate_socket ⟨0, 7⟩ (fun _ => ⟨7, 0⟩) 3 ≠ Outcome.panicked :=
  c4_assoc_total_poll_asserts.1 ⟨0, 7⟩ (fun _ => ⟨7, 0⟩) 3

/-- C5 counterexample: a timeout of the batch wait is treated as a failure
by the dispatch loop — the iteration's assertion fires and the loop does not
continue — contrary to the claim that on timeout the loop continues. -/
theorem c5_counterexample :
    RtInner.initStep ⟨0, 7⟩ (fun _ _ _ => BatchOutcome.timeout) = LoopStep.panicked := rfl

/-- C5 amended: each iteration of the dispatch loop calls the batch wait
with capacity `128` and a `10_000` ms (10-second) timeout and consults the
OS only at those arguments; a successful dequeue processes exactly the
drained records and continues the loop; every non-success wait return — an
OS failure, and a timeout alike — trips the assertion and is fatal. -/
theorem c5_dispatch_loop_policy :
    (∀ (inner : RtInner) (waitEx waitEx' : HANDLE → Nat → Nat → BatchOutcome),
        waitEx inner.iocp 128 10000 = waitEx' inner.iocp 128 10000 →
        inner.initStep waitEx = inner.initStep waitEx') ∧
    (∀ (inner : RtInner) (waitEx : HANDLE → Nat → Nat → BatchOutcome)
        (entries : List (Nat × Nat)),
        waitEx inner.iocp 128 10000 = BatchOutcome.success entries →
        inner.initStep waitEx = LoopStep.next entries) ∧
    (∀ (inner : RtInner) (waitEx : HANDLE → Nat → Nat → BatchOutcome),
        waitEx inner.iocp 128 10000 = BatchOutcome.timeout →
        inner.initStep waitEx = LoopStep.panicked) ∧
    (∀ (inner : RtInner) (waitEx : HANDLE → Nat → Nat → BatchOutcome)
        (code : Int),
        waitEx inner.iocp 128 10000 = BatchOutcome.failure code →
        inner.initStep waitEx = LoopStep.panicked) := by
  refine ⟨?_, ?_, ?_, ?_⟩
  · intro inner waitEx waitEx' h
    unfold RtInner.initStep
    rw [h]
  · intro inner waitEx entries h
    unfold RtInner.initStep
    rw [h]
    rfl
  · intro inner waitEx h
    unfold RtInner.initStep
    rw [h]
    rfl
  · intro inner waitEx code h
    unfold RtInner.initStep
    rw [h]
    rfl

/-- Witness for the amended C5: a concrete OS failure of the batch wait is
fatal to the dispatch loop. -/
theorem c5_dispatch_loop_policy_witness :
    RtInner.initStep ⟨0, 7⟩ (fun _ _ _ => BatchOutcome.failure 5) = LoopStep.panicked :=
  c5_dispatch_loop_policy.2.2.2 ⟨0, 7⟩ (fun _ _ _ => BatchOutcome.failure 5) 5 rfl

/-- C6 counterexample: two different registrations — sockets `1` and `2` on
the same reactor — are registered under the very same completion key (the
fixed literal `123`), so registrations do not receive pairwise distinct
keys. -/
theorem c6_counterexample :
    (RtInner.associateArgs ⟨0, 7⟩ 1).key = (RtInner.associateArgs ⟨0, 7⟩ 2).key ∧
    (1 : SOCKET) ≠ 2 := by decide

/-- C6 amended: every call to `associate_socket` registers the socket with
the port under the single shared constant completion key `123`; no
per-registration key distinction exists, so completions cannot be
correlated back to a specific registration by key. -/
theorem c6_shared_constant_key (inner : RtInner) (sock : SOCKET) :
    (inner.associateArgs sock).key = 123 := rfl

/-- C8: `associate_socket` returns an I/O error wrapping the platform's last
error code exactly when the OS associate call does not return the port
handle supplied (`self.iocp`), and returns `Ok(())` otherwise. -/
theorem c8_associate_error_condition (inner : RtInner)
    (os : AssocCall → AssocOutcome) (sock : SOCKET) :
    inner.associate_socket os sock =
      (if (os (inner.associateArgs sock)).res = inner.iocp then Outcome.ok ()
       else Outcome.err (os (inner.associateArgs sock)).lastError) := by
  unfold RtInner.associate_socket
  by_cases h : (os (inner.associateArgs sock)).res = inner.iocp <;> simp [h]

/-- C10: a successful `poll` returns `Ok(())` carrying no completion data:
whatever byte count, completion key and overlapped pointer the OS wait
dequeued, the caller receives the bare unit success value; the dequeued
triple is discarded inside `poll`. -/
theorem c10_poll_discards_completion_data (inner : RtInner)
    (wait : HANDLE → Nat → WaitOneOutcome) (bytes key ovl : Nat)
    (h : wait inner.iocp 100000 = WaitOneOutcome.success bytes key ovl) :
    inner.poll wait = Outcome.ok () := by
  unfold RtInner.poll
  rw [h]
  rfl

/-- Witness for C10 at a concrete reactor and a concrete dequeued
completion record. -/
theorem c10_poll_discards_completion_data_witness :
    RtInner.poll ⟨0, 7⟩ (fun _ _ => WaitOneOutcome.success 42 9 11) = Outcome.ok () :=
  c10_poll_discards_completion_data ⟨0, 7⟩ (fun _ _ => WaitOneOutcome.success 42 9 11)
    42 9 11 rfl

/-- The `fetch_add(1, Ordering::Relaxed)` that `Poll::global` performs on
the lease counter `refs`: `usize` arithmetic wraps modulo `W`. -/
def refsAdd (c : Nat) : Nat := (c + 1) % W

/-- The `fetch_sub(1, Ordering::Relaxed)` that `Poll::drop` performs on the
lease counter `refs`: `usize` arithmetic wraps modulo `W`, so subtracting
`1` adds `W - 1` modulo `W`. -/
def refsSub (c : Nat) : Nat := (c + (W - 1)) % W

/-- `Poll::global()`: calls `RtInner::global()` and `map`s over the result —
on success it performs `fetch_add(1)` on the shared core's `refs` counter
(the `if refs == 0 { /* TODO: Boot RT */ }` branch does nothing) and yields
a `Poll` lease; on failure the error propagates and nothing is incremented.
Returns the new `GLOBAL` state and the call's result. -/
def Poll.global (s : GState) (o : CreateOutcome) : GState × Outcome Unit :=
  let step := RtInner.globalStep s o
  match step.2.2 with
  | Outcome.ok inner =>
      (some (Except.ok { inner with refs := refsAdd inner.refs }), Outcome.ok ())
  | Outcome.err e => (step.1, Outcome.err e)
  | Outcome.panicked => (step.1, Outcome.panicked)

/-- `Poll::drop`: performs `fetch_sub(1)` on the shared core's `refs`
counter (the `if refs == 1 { /* TODO: Shutdown RT */ }` branch does
nothing). -/
def Poll.drop (inner : RtInner) : RtInner :=
  { inner with refs := refsSub inner.refs }

theorem W_eq : W = 18446744073709551616 := by norm_num [W]

theorem refsAdd_eq (c : Nat) (h : c + 1 < W) : refsAdd c = c + 1 := by
  unfold refsAdd
  exact Nat.mod_eq_of_lt h

theorem refsSub_eq (c : Nat) (h0 : 0 < c) (hW : c < W) : refsSub c = c - 1 := by
  unfold refsSub
  rw [W_eq] at *
  omega

/-- A lease-lifecycle event: `construct` is the counter update of
`Poll::global`'s success path, `destruct` the counter update of
`Poll::drop`. -/
inductive LeaseOp where
  | construct
  | destruct
  deriving Repr, DecidableEq

/-- The counter update each lease event performs on the wrapped `usize`. -/
def leaseStep (c : Nat) : LeaseOp → Nat
  | LeaseOp.construct => refsAdd c
  | LeaseOp.destruct => refsSub c

/-- The wrapped counter value after a sequence of lease events, starting
from `c`. -/
def leaseRun (c : Nat) (ops : List LeaseOp) : Nat := ops.foldl leaseStep c

/-- The true (mathematical) number of live leases after a sequence of
events, starting from `c` live leases. -/
def countRun : Nat → List LeaseOp → Nat
  | c, [] => c
  | c, LeaseOp.construct :: r => countRun (c + 1) r
  | c, LeaseOp.destruct :: r => countRun (c - 1) r

/-- Number of lease constructions in a sequence of events. -/
def constructs : List LeaseOp → Nat
  | [] => 0
  | LeaseOp.construct :: r => constructs r + 1
  | LeaseOp.destruct :: r => constructs r

/-- Number of lease destructions in a sequence of events. -/
def destructs : List LeaseOp → Nat
  | [] => 0
  | LeaseOp.construct :: r => destructs r
  | LeaseOp.destruct :: r => destructs r + 1

/-- A sequence of lease events is a valid interleaving from live count `c`:
every destruction destroys a previously constructed, still-live lease (the
live count is positive when it occurs), and the number of simultaneously
live leases stays below the counter width `W` (true of any real execution,
since each live lease is a distinct object in memory). -/
def validSeq : Nat → List LeaseOp → Bool
  | _, [] => true
  | c, LeaseOp.construct :: r => decide (c + 1 < W) && validSeq (c + 1) r
  | c, LeaseOp.destruct :: r => decide (0 < c) && validSeq (c - 1) r

theorem leaseRun_cons (c : Nat) (op : LeaseOp) (r : List LeaseOp) :
    leaseRun c (op :: r) = leaseRun (leaseStep c op) r := rfl

theorem leaseRun_eq_countRun (ops : List LeaseOp) :
    ∀ c, c < W → validSeq c ops = true → leaseRun c ops = countRun c ops := by
  induction ops with
  | nil => intro c _ _; rfl
  | cons op r ih =>
    intro c hc hv
    rw [leaseRun_cons]
    cases op with
    | construct =>
      simp only [validSeq, Bool.and_eq_true, decide_eq_true_eq] at hv
      simp only [leaseStep, countRun]
      rw [refsAdd_eq c hv.1]
      exact ih (c + 1) hv.1 hv.2
    | destruct =>
      simp only [validSeq, Bool.and_eq_true, decide_eq_true_eq] at hv
      simp only [leaseStep, countRun]
      rw [refsSub_eq c hv.1 hc]
      exact ih (c - 1) (by omega) hv.2

theorem countRun_add_destructs (ops : List LeaseOp) :
    ∀ c, validSeq c ops = true →
      countRun c ops + destructs ops = c + constructs ops := by
  induction ops with
  | nil => intro c _; simp [countRun, constructs, destructs]
  | cons op r ih =>
    intro c hv
    cases op with
    | construct =>
      simp only [validSeq, Bool.and_eq_true, decide_eq_true_eq] at hv
      have := ih (c + 1) hv.2
      simp only [countRun, constructs, destructs]
      omega
    | destruct =>
      simp only [validSeq, Bool.and_eq_true, decide_eq_true_eq] at hv
      have := ih (c - 1) hv.2
      simp only [countRun, constructs, destructs]
      omega

theorem validSeq_take (ops : List LeaseOp) :
    ∀ c i, validSeq c ops = true → validSeq c (ops.take i) = true := by
  induction ops with
  | nil => intro c i _; simp [validSeq]
  | cons op r ih =>
    intro c i hv
    cases i with
    | zero => rfl
    | succ i =>
      cases op with
      | construct =>
        simp only [List.take, validSeq, Bool.and_eq_true] at *
        exact ⟨hv.1, ih (c + 1) i hv.2⟩
      | destruct =>
        simp only [List.take, validSeq, Bool.and_eq_true] at *
        exact ⟨hv.1, ih (c - 1) i hv.2⟩

/-- C7: for any valid interleaving of lease constructions and matching
destructions starting from zero live leases — every destruction matches an
earlier construction, with the balanced totals `constructs ops =
destructs ops` — the wrapped `usize` counter driven by `Poll::global`'s
increment and `Poll::drop`'s decrement ends at `0`, and after every prefix
of the interleaving it equals the true non-negative number of live leases,
so it is never decremented below zero and never observed "negative"
(wrapped). -/
theorem c7_refcount_balance (ops : List LeaseOp)
    (hv : validSeq 0 ops = true)
    (hbal : constructs ops = destructs ops) :
    leaseRun 0 ops = 0 ∧
    ∀ i, leaseRun 0 (ops.take i) = countRun 0 (ops.take i) := by
  have hW0 : (0 : Nat) < W := by rw [W_eq]; omega
  have htake : ∀ i, leaseRun 0 (ops.take i) = countRun 0 (ops.take i) :=
    fun i => leaseRun_eq_countRun (ops.take i) 0 hW0 (validSeq_take ops 0 i hv)
  refine ⟨?_, htake⟩
  have h1 := leaseRun_eq_countRun ops 0 hW0 hv
  have h2 := countRun_add_destructs ops 0 hv
  omega

/-- Witness for C7: two constructions followed by their two matching
destructions form a valid balanced interleaving, leave the counter at `0`,
and after the three-event prefix the counter equals the one live lease. -/
theorem c7_refcount_balance_witness :
    validSeq 0 [LeaseOp.construct, LeaseOp.construct,
                LeaseOp.destruct, LeaseOp.destruct] = true ∧
    leaseRun 0 [LeaseOp.construct, LeaseOp.construct,
                LeaseOp.destruct, LeaseOp.destruct] = 0 ∧
    leaseRun 0 ([LeaseOp.construct, LeaseOp.construct,
                 LeaseOp.destruct, LeaseOp.destruct].take 3) =
      countRun 0 ([LeaseOp.construct, LeaseOp.construct,
                   LeaseOp.destruct, LeaseOp.destruct].take 3) :=
  ⟨by norm_num [validSeq, W],
    (c7_refcount_balance
      [LeaseOp.construct, LeaseOp.construct, LeaseOp.destruct, LeaseOp.destruct]
      (by norm_num [validSeq, W]) rfl).1,
    (c7_refcount_balance
      [LeaseOp.construct, LeaseOp.construct, LeaseOp.destruct, LeaseOp.destruct]
      (by norm_num [validSeq, W]) rfl).2 3⟩

/-- C9: when the global reactor's cached state is a creation failure with
code `e`, `Poll::global` returns the reconstructed error and leaves the
state — in particular the `refs` active-consumer counter — unchanged; the
counter is incremented exactly on the success path, where a lease value is
actually constructed and returned. -/
theorem c9_no_increment_on_cached_failure (e : Int) (o : CreateOutcome)
    (inner : RtInner) :
    Poll.global (some (Except.error e)) o =
      (some (Except.error e), Outcome.err e) ∧
    Poll.global (some (Except.ok inner)) o =
      (some (Except.ok { inner with refs := refsAdd inner.refs }),
        Outcome.ok ()) :=
  ⟨rfl, rfl⟩

end Mio
